import Mathlib

/-!
Verification of the credential lifecycle manager and tool-dispatch layer of
the mcp-blogger repository.

The repository ships two parts:
- `index.js` (present in the sources): the MCP server, its module-level
  environment checks, `getAuthClient`, and the tool handlers. Definitions
  for that part are translated directly from `index.js`.
- `oauth.js` (the `BloggerOAuth` class): only its TypeScript declaration
  is present in the sources, so the OAuth core (token store, consent flow,
  `getAuthenticatedClient`, `revokeAuth`) is modelled from the spec, as
  marked on each definition.

Time is modelled as `Int` epoch milliseconds. Network activity is made
observable as an explicit list of `NetworkCall` values returned alongside
each operation's result.
-/

/-- A persisted credential record (spec section 3): `accessToken`,
optional `refreshToken`, absolute `expiresAt` instant (epoch ms), and the
granted `scope` strings. -/
structure CredentialRecord where
  accessToken : String
  refreshToken : Option String
  expiresAt : Int
  scope : List String
deriving Repr, DecidableEq

/-- Modelled from the spec: the state of the on-disk credential file owned
by the Token Store (`oauth.js` is absent from the sources). The spec makes
a record either absent (no file or unparsable file) or complete, so the
file state is one of: no file, a file with malformed JSON, or a file
holding a complete record. -/
inductive FileState where
  | missing : FileState
  | malformed : FileState
  | valid : CredentialRecord → FileState
deriving Repr, DecidableEq

/-- Modelled from the spec: `TokenStore.load()` returns the credential
record, or absent on a missing file or malformed JSON; corruption never
raises an error and is treated identically to having no credential yet. -/
def TokenStore.load : FileState → Option CredentialRecord
  | FileState.missing => none
  | FileState.malformed => none
  | FileState.valid r => some r

/-- Modelled from the spec: `TokenStore.save(record)` atomically replaces
the credential file wholesale with the given record. -/
def TokenStore.save (r : CredentialRecord) (_fs : FileState) : FileState :=
  FileState.valid r

/-- Modelled from the spec: `TokenStore.clear()` deletes the record. -/
def TokenStore.clear (_fs : FileState) : FileState :=
  FileState.missing

/-- A network call made by the OAuth core, recorded so that theorems can
count the network activity of an operation. -/
inductive NetworkCall where
  | tokenExchange : NetworkCall
  | refreshCall : NetworkCall
  | revokeCall : NetworkCall
deriving Repr, DecidableEq

/-- Modelled from the spec: the provider token endpoint's response body for
a code exchange or a refresh grant (`access_token`, optional
`refresh_token`, `expires_in` seconds). -/
structure TokenResponse where
  access_token : String
  refresh_token : Option String
  expires_in : Int
deriving Repr, DecidableEq

/-- Status of a transient Flow Session (spec section 3). -/
inductive FlowStatus where
  | Pending : FlowStatus
  | Completed : FlowStatus
  | Failed : FlowStatus
  | TimedOut : FlowStatus
deriving Repr, DecidableEq

/-- A callback request received by the local listener, carrying the `code`
and `state` query parameters. -/
structure CallbackReq where
  code : String
  state : String
deriving Repr, DecidableEq

/-- The first event that resolves a consent flow: either a callback
request arrives at the listener, or the 5-minute timeout fires first. -/
inductive FlowEvent where
  | callback : CallbackReq → FlowEvent
  | timeout : FlowEvent
deriving Repr, DecidableEq

/-- Result of one consent flow: the outcome handed to the caller, the
token-store state after the flow, the final Flow Session status, and the
network calls performed. -/
structure FlowResult where
  outcome : Except String String
  store : FileState
  status : FlowStatus
  calls : List NetworkCall

/-- Modelled from the spec: `BloggerOAuth.performOAuthFlow` (the
implementation is absent from the sources). The flow binds a fresh
`sessionState` nonce, waits for the first event, and on a callback
validates `state` against the session exactly; a mismatch is rejected and
the flow marked Failed without touching the cached credential. A valid
callback exchanges `code` at the token endpoint and persists the resulting
record; no callback within the timeout window fails the flow with a
descriptive error and writes nothing. -/
def performOAuthFlow (sessionState : String) (event : FlowEvent)
    (exchange : String → Except String TokenResponse) (now : Int)
    (fs : FileState) : FlowResult :=
  match event with
  | FlowEvent.timeout =>
      { outcome := Except.error "OAuth flow timed out after 5 minutes"
        store := fs
        status := FlowStatus.TimedOut
        calls := [] }
  | FlowEvent.callback req =>
      if req.state = sessionState then
        match exchange req.code with
        | Except.ok resp =>
            let r : CredentialRecord :=
              { accessToken := resp.access_token
                refreshToken := resp.refresh_token
                expiresAt := now + resp.expires_in * 1000
                scope := [] }
            { outcome := Except.ok r.accessToken
              store := TokenStore.save r fs
              status := FlowStatus.Completed
              calls := [NetworkCall.tokenExchange] }
        | Except.error e =>
            { outcome := Except.error e
              store := fs
              status := FlowStatus.Failed
              calls := [NetworkCall.tokenExchange] }
      else
        { outcome := Except.error "State mismatch: possible CSRF or stale redirect"
          store := fs
          status := FlowStatus.Failed
          calls := [] }

/-- The environment one `getAuthenticatedClient()` call runs in: the
current instant, the clock-skew margin, the refresh endpoint's outcome if
a refresh grant is attempted, and the consent flow's session nonce, first
event, and token-endpoint behaviour if a full flow is needed. -/
structure OAuthEnv where
  now : Int
  margin : Int
  refreshOutcome : Except String TokenResponse
  flowState : String
  flowEvent : FlowEvent
  exchange : String → Except String TokenResponse

/-- Result of one `getAuthenticatedClient()` call: the access token handed
to the caller (or a failure), the token-store state afterwards, and the
network calls performed. -/
structure AuthResult where
  outcome : Except String String
  store : FileState
  calls : List NetworkCall

/-- Modelled from the spec: `BloggerOAuth.getAuthenticatedClient` (the
implementation is absent from the sources). Per the spec's algorithm:
load the record; if absent run the consent flow; if present and
`now < expiresAt - margin` return the cached access token unchanged with
no network activity; if expired with a refresh token, call the refresh
endpoint and on success save the new access token and expiry, reusing the
stored refresh token unless the provider issued a new one; on refresh
failure, or when expired with no refresh token, clear the stale record and
fall back to a full consent flow. -/
def getAuthenticatedClient (env : OAuthEnv) (fs : FileState) : AuthResult :=
  match TokenStore.load fs with
  | none =>
      let fr := performOAuthFlow env.flowState env.flowEvent env.exchange env.now fs
      { outcome := fr.outcome, store := fr.store, calls := fr.calls }
  | some r =>
      if env.now < r.expiresAt - env.margin then
        { outcome := Except.ok r.accessToken, store := fs, calls := [] }
      else
        match r.refreshToken with
        | some _ =>
            match env.refreshOutcome with
            | Except.ok resp =>
                let r2 : CredentialRecord :=
                  { accessToken := resp.access_token
                    refreshToken :=
                      match resp.refresh_token with
                      | some nrt => some nrt
                      | none => r.refreshToken
                    expiresAt := env.now + resp.expires_in * 1000
                    scope := r.scope }
                { outcome := Except.ok r2.accessToken
                  store := TokenStore.save r2 fs
                  calls := [NetworkCall.refreshCall] }
            | Except.error _ =>
                let fr := performOAuthFlow env.flowState env.flowEvent
                  env.exchange env.now (TokenStore.clear fs)
                { outcome := fr.outcome, store := fr.store
                  calls := NetworkCall.refreshCall :: fr.calls }
        | none =>
            let fr := performOAuthFlow env.flowState env.flowEvent
              env.exchange env.now (TokenStore.clear fs)
            { outcome := fr.outcome, store := fr.store, calls := fr.calls }

/-- Result of `revokeAuth()`: the token-store state afterwards, the
network calls performed, and whether the remote revocation succeeded. -/
structure RevokeResult where
  store : FileState
  calls : List NetworkCall
  remoteSucceeded : Bool
deriving Repr, DecidableEq

/-- Modelled from the spec: `BloggerOAuth.revokeAuth` (the implementation
is absent from the sources): a best-effort call to the provider's
revocation endpoint, whose success or failure is recorded but does not
gate the unconditional local `TokenStore.clear()`. -/
def revokeAuth (remoteOk : Bool) (fs : FileState) : RevokeResult :=
  { store := TokenStore.clear fs
    calls := [NetworkCall.revokeCall]
    remoteSucceeded := remoteOk }

/-- JavaScript truthiness of an environment variable: `process.env.X` is
either undefined (`none`) or a string, and an empty string is falsy. -/
def truthy : Option String → Bool
  | none => false
  | some s => !s.isEmpty

/-- The process environment read at the top of `index.js`. -/
structure ProcessEnv where
  BLOGGER_API_KEY : Option String
  GOOGLE_CLIENT_ID : Option String
  GOOGLE_CLIENT_SECRET : Option String
deriving Repr, DecidableEq

/-- The module-level constants the server runs with when startup succeeds:
`API_KEY`, and whether `oauthHandler` was constructed
(`CLIENT_ID && CLIENT_SECRET ? new BloggerOAuth() : null`). -/
structure ServerConfig where
  apiKey : Option String
  hasOAuthHandler : Bool
deriving Repr, DecidableEq

/-- Outcome of module initialization in `index.js`: either
`process.exit(1)` or a running server with its configuration. -/
inductive InitResult where
  | fatal : Nat → InitResult
  | running : ServerConfig → InitResult
deriving Repr, DecidableEq

/-- Module initialization of `index.js` (lines 9-23): warnings aside, the
process exits with code 1 when neither `BLOGGER_API_KEY` nor both OAuth
credentials are set; otherwise `oauthHandler` is constructed exactly when
both `GOOGLE_CLIENT_ID` and `GOOGLE_CLIENT_SECRET` are truthy. -/
def moduleInit (env : ProcessEnv) : InitResult :=
  if !truthy env.BLOGGER_API_KEY &&
      (!truthy env.GOOGLE_CLIENT_ID || !truthy env.GOOGLE_CLIENT_SECRET) then
    InitResult.fatal 1
  else
    InitResult.running
      { apiKey := env.BLOGGER_API_KEY
        hasOAuthHandler :=
          truthy env.GOOGLE_CLIENT_ID && truthy env.GOOGLE_CLIENT_SECRET }

/-- The authentication value `getAuthClient` resolves to: the OAuth
client's access token, or the raw API key string. -/
inductive AuthHandle where
  | oauthClient : String → AuthHandle
  | apiKeyAuth : String → AuthHandle
deriving Repr, DecidableEq

/-- `BloggerMCPServer.getAuthClient` (`index.js` lines 50-62): with
`requireWrite` and a constructed `oauthHandler`, delegate to
`oauthHandler.getAuthenticatedClient()` (its outcome is the
`oauthOutcome` parameter); otherwise return `API_KEY` when truthy;
otherwise throw the error used when no authentication method is
available. -/
def getAuthClient (oauthOutcome : Except String String) (cfg : ServerConfig)
    (requireWrite : Bool) : Except String AuthHandle :=
  if requireWrite && cfg.hasOAuthHandler then
    Except.map AuthHandle.oauthClient oauthOutcome
  else if truthy cfg.apiKey then
    Except.ok (AuthHandle.apiKeyAuth (cfg.apiKey.getD ""))
  else
    Except.error "No authentication method available"

/-- `BloggerMCPServer.getBlogInfo` acquires its auth with
`getAuthClient(false)` (`index.js` line 355): the read path. -/
def getBlogInfoAuth (oauthOutcome : Except String String)
    (cfg : ServerConfig) : Except String AuthHandle :=
  getAuthClient oauthOutcome cfg false

/-- `BloggerMCPServer.listPosts` acquires its auth with
`getAuthClient(false)` (`index.js` line 400): the read path. -/
def listPostsAuth (oauthOutcome : Except String String)
    (cfg : ServerConfig) : Except String AuthHandle :=
  getAuthClient oauthOutcome cfg false

/-- `BloggerMCPServer.searchPosts` acquires its auth with
`getAuthClient(false)` (`index.js` line 490): the read path. -/
def searchPostsAuth (oauthOutcome : Except String String)
    (cfg : ServerConfig) : Except String AuthHandle :=
  getAuthClient oauthOutcome cfg false

/-- A JavaScript primitive value, as far as the `isDraft` tool argument is
concerned. -/
inductive JsVal where
  | undefined : JsVal
  | null : JsVal
  | boolean : Bool → JsVal
  | string : String → JsVal
  | number : Int → JsVal
deriving Repr, DecidableEq

/-- JavaScript strict equality (`===`) on primitive values: values of
different types are never strictly equal. -/
def jsStrictEq : JsVal → JsVal → Bool
  | JsVal.undefined, JsVal.undefined => true
  | JsVal.null, JsVal.null => true
  | JsVal.boolean a, JsVal.boolean b => a == b
  | JsVal.string a, JsVal.string b => a == b
  | JsVal.number a, JsVal.number b => a == b
  | _, _ => false

/-- The parameters `createPost` passes to `bloggerClient.posts.insert`
(`index.js` lines 529-552): the draft branch adds `isDraft: true`, the
publish branch passes no `isDraft` parameter. -/
structure InsertParams where
  blogId : String
  title : String
  content : String
  labels : List String
  isDraft : Option Bool
deriving Repr, DecidableEq

/-- `BloggerMCPServer.createPost` (`index.js` lines 515-552), reduced to
the insert request it issues: a draft insert with `isDraft: true` when the
`isDraft` argument is true, a plain insert otherwise. -/
def createPost (blogId title content : String) (labels : List String)
    (isDraft : Bool) : InsertParams :=
  if isDraft then
    { blogId := blogId, title := title, content := content
      labels := labels, isDraft := some true }
  else
    { blogId := blogId, title := title, content := content
      labels := labels, isDraft := none }

/-- The `create_post` case of the tool-call handler (`index.js` line 303):
it invokes `createPost` with `args.isDraft !== false`, so any argument
value other than the boolean `false` - including an omitted argument,
which reads as `undefined` - selects the draft branch. -/
def handleCreatePost (blogId title content : String) (labels : List String)
    (isDraftArg : JsVal) : InsertParams :=
  createPost blogId title content labels
    (!jsStrictEq isDraftArg (JsVal.boolean false))

/-- C1: for every persisted credential record whose `expiresAt` lies in
the future by more than the clock-skew margin, `getAuthenticatedClient()`
returns the cached `accessToken` unchanged, leaves the token store as it
was (the only I/O is the local read), and performs zero network calls. -/
theorem fresh_cached_token_no_network (env : OAuthEnv) (fs : FileState)
    (r : CredentialRecord)
    (hload : TokenStore.load fs = some r)
    (hfresh : env.now < r.expiresAt - env.margin) :
    getAuthenticatedClient env fs =
      { outcome := Except.ok r.accessToken, store := fs, calls := [] } := by
  unfold getAuthenticatedClient
  rw [hload]
  simp [hfresh]

/-- Witness for C1 at a concrete fresh record. -/
theorem fresh_cached_token_no_network_witness :
    TokenStore.load
        (FileState.valid
          { accessToken := "A", refreshToken := some "R"
            expiresAt := 100000, scope := ["blogger"] }) =
      some { accessToken := "A", refreshToken := some "R"
             expiresAt := 100000, scope := ["blogger"] } ∧
    (1000 : Int) < 100000 - 60000 ∧
    getAuthenticatedClient
        { now := 1000, margin := 60000
          refreshOutcome := Except.error "unused"
          flowState := "s", flowEvent := FlowEvent.timeout
          exchange := fun _ => Except.error "unused" }
        (FileState.valid
          { accessToken := "A", refreshToken := some "R"
            expiresAt := 100000, scope := ["blogger"] }) =
      { outcome := Except.ok "A"
        store := FileState.valid
          { accessToken := "A", refreshToken := some "R"
            expiresAt := 100000, scope := ["blogger"] }
        calls := [] } :=
  ⟨rfl, by decide,
    fresh_cached_token_no_network
      { now := 1000, margin := 60000
        refreshOutcome := Except.error "unused"
        flowState := "s", flowEvent := FlowEvent.timeout
        exchange := fun _ => Except.error "unused" }
      (FileState.valid
        { accessToken := "A", refreshToken := some "R"
          expiresAt := 100000, scope := ["blogger"] })
      { accessToken := "A", refreshToken := some "R"
        expiresAt := 100000, scope := ["blogger"] }
      rfl (by decide)⟩

/-- C2: a callback whose `state` does not equal the state bound to the
active Flow Session never results in a token store write: the store after
the flow equals the store before it, the flow is marked Failed, and the
outcome is an error. -/
theorem state_mismatch_never_writes (sessionState : String)
    (req : CallbackReq) (exchange : String → Except String TokenResponse)
    (now : Int) (fs : FileState)
    (hmm : req.state ≠ sessionState) :
    (performOAuthFlow sessionState (FlowEvent.callback req) exchange now
        fs).store = fs ∧
    (performOAuthFlow sessionState (FlowEvent.callback req) exchange now
        fs).status = FlowStatus.Failed ∧
    ∃ e, (performOAuthFlow sessionState (FlowEvent.callback req) exchange
        now fs).outcome = Except.error e := by
  simp only [performOAuthFlow]
  rw [if_neg hmm]
  exact ⟨rfl, rfl, _, rfl⟩

/-- Witness for C2: a mismatched callback against a cached credential,
with a token endpoint that would succeed if it were ever consulted. -/
theorem state_mismatch_never_writes_witness :
    "attacker" ≠ "nonce" ∧
    (performOAuthFlow "nonce"
        (FlowEvent.callback { code := "c", state := "attacker" })
        (fun _ => Except.ok
          { access_token := "X", refresh_token := some "Y"
            expires_in := 3600 })
        0
        (FileState.valid
          { accessToken := "A", refreshToken := some "R"
            expiresAt := 100000, scope := [] })).store =
      FileState.valid
        { accessToken := "A", refreshToken := some "R"
          expiresAt := 100000, scope := [] } ∧
    (performOAuthFlow "nonce"
        (FlowEvent.callback { code := "c", state := "attacker" })
        (fun _ => Except.ok
          { access_token := "X", refresh_token := some "Y"
            expires_in := 3600 })
        0
        (FileState.valid
          { accessToken := "A", refreshToken := some "R"
            expiresAt := 100000, scope := [] })).status =
      FlowStatus.Failed :=
  ⟨by decide,
    (state_mismatch_never_writes "nonce"
      { code := "c", state := "attacker" }
      (fun _ => Except.ok
        { access_token := "X", refresh_token := some "Y"
          expires_in := 3600 })
      0
      (FileState.valid
        { accessToken := "A", refreshToken := some "R"
          expiresAt := 100000, scope := [] })
      (by decide)).1,
    (state_mismatch_never_writes "nonce"
      { code := "c", state := "attacker" }
      (fun _ => Except.ok
        { access_token := "X", refresh_token := some "Y"
          expires_in := 3600 })
      0
      (FileState.valid
        { accessToken := "A", refreshToken := some "R"
          expiresAt := 100000, scope := [] })
      (by decide)).2.1⟩

/-- C3: a consent flow resolved by the 5-minute timeout rather than a
valid callback fails with a descriptive error, is marked TimedOut, and
leaves the token store exactly as it was before the flow started. -/
theorem timeout_leaves_store_unchanged (sessionState : String)
    (exchange : String → Except String TokenResponse) (now : Int)
    (fs : FileState) :
    performOAuthFlow sessionState FlowEvent.timeout exchange now fs =
      { outcome := Except.error "OAuth flow timed out after 5 minutes"
        store := fs
        status := FlowStatus.TimedOut
        calls := [] } :=
  rfl

/-- C4: after every `revokeAuth()` call, whether or not the remote
revocation succeeded, `TokenStore.load()` returns absent: the local clear
is unconditional. -/
theorem revoke_clears_unconditionally (remoteOk : Bool) (fs : FileState) :
    TokenStore.load (revokeAuth remoteOk fs).store = none :=
  rfl

/-- C5: when an expired record is refreshed and the provider's refresh
response carries no new refresh token, the stored record keeps its
previous `refreshToken` (and `scope`) and only `accessToken` and
`expiresAt` are updated. -/
theorem refresh_retains_refresh_token (env : OAuthEnv) (fs : FileState)
    (r : CredentialRecord) (rt : String) (resp : TokenResponse)
    (hload : TokenStore.load fs = some r)
    (hexp : ¬ env.now < r.expiresAt - env.margin)
    (hrt : r.refreshToken = some rt)
    (hok : env.refreshOutcome = Except.ok resp)
    (hnonew : resp.refresh_token = none) :
    getAuthenticatedClient env fs =
      { outcome := Except.ok resp.access_token
        store := FileState.valid
          { accessToken := resp.access_token
            refreshToken := some rt
            expiresAt := env.now + resp.expires_in * 1000
            scope := r.scope }
        calls := [NetworkCall.refreshCall] } := by
  unfold getAuthenticatedClient
  rw [hload]
  simp [hexp, hrt, hok, hnonew, TokenStore.save]

/-- Witness for C5: the spec's scenario - a record expired 10 seconds ago
with refresh token "R", a refresh response with access token "B" and no
refresh token; the stored record keeps "R". -/
theorem refresh_retains_refresh_token_witness :
    TokenStore.load
        (FileState.valid
          { accessToken := "A", refreshToken := some "R"
            expiresAt := 990000, scope := ["blogger"] }) =
      some { accessToken := "A", refreshToken := some "R"
             expiresAt := 990000, scope := ["blogger"] } ∧
    ¬ (1000000 : Int) < 990000 - 60000 ∧
    getAuthenticatedClient
        { now := 1000000, margin := 60000
          refreshOutcome := Except.ok
            { access_token := "B", refresh_token := none
              expires_in := 3600 }
          flowState := "s", flowEvent := FlowEvent.timeout
          exchange := fun _ => Except.error "unused" }
        (FileState.valid
          { accessToken := "A", refreshToken := some "R"
            expiresAt := 990000, scope := ["blogger"] }) =
      { outcome := Except.ok "B"
        store := FileState.valid
          { accessToken := "B", refreshToken := some "R"
            expiresAt := 1000000 + 3600 * 1000, scope := ["blogger"] }
        calls := [NetworkCall.refreshCall] } :=
  ⟨rfl, by decide,
    refresh_retains_refresh_token
      { now := 1000000, margin := 60000
        refreshOutcome := Except.ok
          { access_token := "B", refresh_token := none
            expires_in := 3600 }
        flowState := "s", flowEvent := FlowEvent.timeout
        exchange := fun _ => Except.error "unused" }
      (FileState.valid
        { accessToken := "A", refreshToken := some "R"
          expiresAt := 990000, scope := ["blogger"] })
      { accessToken := "A", refreshToken := some "R"
        expiresAt := 990000, scope := ["blogger"] }
      "R"
      { access_token := "B", refresh_token := none, expires_in := 3600 }
      rfl (by decide) rfl rfl rfl⟩

/-- C6: `save(record)` followed by `load()` returns a record equal in all
four fields (accessToken, refreshToken, expiresAt, scope) to the record
that was saved, from any prior store state. -/
theorem save_load_roundtrip (r : CredentialRecord) (fs : FileState) :
    ∃ r', TokenStore.load (TokenStore.save r fs) = some r' ∧
      r'.accessToken = r.accessToken ∧
      r'.refreshToken = r.refreshToken ∧
      r'.expiresAt = r.expiresAt ∧
      r'.scope = r.scope :=
  ⟨r, rfl, rfl, rfl, rfl, rfl⟩

/-- C7: whenever the credential file is missing or holds malformed JSON,
`TokenStore.load()` returns absent rather than raising an error (its
return type is total), treating corruption identically to having no
credential yet. -/
theorem load_absent_on_missing_or_malformed (fs : FileState)
    (h : fs = FileState.missing ∨ fs = FileState.malformed) :
    TokenStore.load fs = none := by
  rcases h with h | h <;> subst h <;> rfl

/-- Witness for C7 at the missing-file state. -/
theorem load_absent_on_missing_or_malformed_witness :
    (FileState.missing = FileState.missing ∨
      FileState.missing = FileState.malformed) ∧
    TokenStore.load FileState.missing = none :=
  ⟨Or.inl rfl,
    load_absent_on_missing_or_malformed FileState.missing (Or.inl rfl)⟩

/-- C8 counterexample: with `BLOGGER_API_KEY` set and both OAuth client
credentials missing, module initialization does not exit: the server
starts with `oauthHandler` null, so missing client credentials are not
fatal as the claim states. -/
theorem missing_credentials_not_fatal_with_api_key :
    moduleInit
        { BLOGGER_API_KEY := some "key123"
          GOOGLE_CLIENT_ID := none
          GOOGLE_CLIENT_SECRET := none } =
      InitResult.running { apiKey := some "key123", hasOAuthHandler := false } :=
  rfl

/-- C8 (amended): when the OAuth client credentials are missing, startup
is fatal (immediate `process.exit(1)`, never retried) exactly when
`BLOGGER_API_KEY` is also missing; with an API key configured the server
starts with OAuth disabled (`oauthHandler` null). -/
theorem missing_credentials_fatal_iff_no_api_key (env : ProcessEnv)
    (hmiss : truthy env.GOOGLE_CLIENT_ID = false ∨
      truthy env.GOOGLE_CLIENT_SECRET = false) :
    (truthy env.BLOGGER_API_KEY = false →
      moduleInit env = InitResult.fatal 1) ∧
    (truthy env.BLOGGER_API_KEY = true →
      moduleInit env =
        InitResult.running
          { apiKey := env.BLOGGER_API_KEY, hasOAuthHandler := false }) := by
  unfold moduleInit
  rcases hmiss with h | h <;>
    constructor <;> intro hk <;> simp [h, hk]

/-- Witness for the amended C8: no API key and no client credentials is
the fatal case. -/
theorem missing_credentials_fatal_iff_no_api_key_witness :
    truthy (none : Option String) = false ∧
    moduleInit
        { BLOGGER_API_KEY := none
          GOOGLE_CLIENT_ID := none
          GOOGLE_CLIENT_SECRET := none } =
      InitResult.fatal 1 :=
  ⟨rfl,
    (missing_credentials_fatal_iff_no_api_key
      { BLOGGER_API_KEY := none, GOOGLE_CLIENT_ID := none
        GOOGLE_CLIENT_SECRET := none } (Or.inl rfl)).1 rfl⟩

/-- C9: with `BLOGGER_API_KEY` unset, the read tools `get_blog_info`,
`list_posts` and `search_posts` all fail with the error used when no
authentication method is available - even when `oauthHandler` is
constructed and its `getAuthenticatedClient()` would return a valid
cached credential, because the read path never consults it. -/
theorem read_tools_fail_without_api_key
    (oauthOutcome : Except String String) (cfg : ServerConfig)
    (hk : truthy cfg.apiKey = false) :
    getBlogInfoAuth oauthOutcome cfg =
      Except.error "No authentication method available" ∧
    listPostsAuth oauthOutcome cfg =
      Except.error "No authentication method available" ∧
    searchPostsAuth oauthOutcome cfg =
      Except.error "No authentication method available" := by
  unfold getBlogInfoAuth listPostsAuth searchPostsAuth getAuthClient
  simp [hk]

/-- Witness for C9: OAuth configured and a valid cached token available,
yet the read tools fail because the API key is unset. -/
theorem read_tools_fail_without_api_key_witness :
    truthy (none : Option String) = false ∧
    getBlogInfoAuth (Except.ok "cachedToken")
        { apiKey := none, hasOAuthHandler := true } =
      Except.error "No authentication method available" ∧
    listPostsAuth (Except.ok "cachedToken")
        { apiKey := none, hasOAuthHandler := true } =
      Except.error "No authentication method available" :=
  ⟨rfl,
    (read_tools_fail_without_api_key (Except.ok "cachedToken")
      { apiKey := none, hasOAuthHandler := true } rfl).1,
    (read_tools_fail_without_api_key (Except.ok "cachedToken")
      { apiKey := none, hasOAuthHandler := true } rfl).2.1⟩

/-- C10: a `create_post` call whose `isDraft` argument is omitted
(`undefined`) or is any value other than the boolean `false` issues an
insert with `isDraft: true` (a draft); only an explicit boolean `false`
issues the plain insert that publishes immediately. -/
theorem create_post_draft_unless_explicit_false
    (blogId title content : String) (labels : List String) (v : JsVal)
    (hv : v ≠ JsVal.boolean false) :
    (handleCreatePost blogId title content labels v).isDraft = some true ∧
    (handleCreatePost blogId title content labels
        (JsVal.boolean false)).isDraft = none := by
  refine ⟨?_, rfl⟩
  have hne : jsStrictEq v (JsVal.boolean false) = false := by
    cases v with
    | undefined => rfl
    | null => rfl
    | boolean b =>
        cases b with
        | false => exact absurd rfl hv
        | true => rfl
    | string s => rfl
    | number n => rfl
  simp [handleCreatePost, createPost, hne]

/-- Witness for C10: an omitted `isDraft` argument (undefined) creates a
draft. -/
theorem create_post_draft_unless_explicit_false_witness :
    JsVal.undefined ≠ JsVal.boolean false ∧
    (handleCreatePost "blog1" "Title" "Body" [] JsVal.undefined).isDraft =
      some true :=
  ⟨by decide,
    (create_post_draft_unless_explicit_false "blog1" "Title" "Body" []
      JsVal.undefined (by decide)).1⟩
